import Mathlib

/-!
Shallow embedding of the OCR topic/question extraction engine of this
repository, together with theorems settling the frozen claims about it.

Sources embedded:
* src/saved_code.txt, function extract_topics_and_questions: the CSV-guided
  extractor (heading alternation regex, dict of locations, per-row
  segmentation, EXERCISES question scan).
* src/unnamed/part_000, functions extract_ncert_topics / extract_topics
  (guide-free dotted-heading extractor), extract_questions (dash-delimited
  question scan) and the hyphen-newline removal inside pdf_to_ocr_text.

Texts are modelled as List Char; offsets are Nat character positions,
matching Python string indices for the ASCII inputs used here.  The Python
re semantics (MULTILINE anchors, leftmost scan, alternation order, greedy
and lazy repetition with the backtracking actually reachable for these
fixed patterns) are reproduced by explicit functions below.
-/

/-- ASCII whitespace as matched by the Python regex class \s and by str.strip(). -/
def isWs (c : Char) : Bool :=
  c == ' ' || c == '\t' || c == '\n' || c == '\r' || c == '\x0b' || c == '\x0c'

/-- Python str.strip(): drop leading and trailing whitespace. -/
def pyStrip (l : List Char) : List Char :=
  ((l.dropWhile isWs).reverse.dropWhile isWs).reverse

/-- Does the second list start with the first one (literal match)? -/
def lcStartsWith : List Char → List Char → Bool
  | [], _ => true
  | _ :: _, [] => false
  | p :: ps, c :: cs => p == c && lcStartsWith ps cs

/-- Position p is a MULTILINE line start of text: offset 0 or just after a newline. -/
def isLineStart (text : List Char) (p : Nat) : Bool :=
  p == 0 || (text.get? (p - 1) == some '\n')

/-- One alternative of the heading pattern of saved_code.txt: the escaped
number literal followed by at least one whitespace character.  Does
alternative num match at position p? -/
def matchesAt (text : List Char) (p : Nat) (num : List Char) : Bool :=
  lcStartsWith num (text.drop p) &&
    match text.drop (p + num.length) with
    | c :: _ => isWs c
    | [] => false

/-- Python alternation: the first alternative (in CSV order) whose literal plus
the following whitespace requirement succeeds at p. -/
def findFirstAlt (text : List Char) (p : Nat) : List (List Char) → Option (List Char)
  | [] => none
  | n :: ns => if matchesAt text p n then some n else findFirstAlt text p ns

/-- Length of the maximal whitespace run at position q (the greedy match of the
final whitespace-plus of the heading pattern). -/
def wsRunLen (text : List Char) (q : Nat) : Nat :=
  ((text.drop q).takeWhile isWs).length

/-- re.finditer over the heading pattern of saved_code.txt: scan positions left
to right; at each line start try the alternatives in order; on success emit
(group 1, match start) and resume after the match (number plus greedy
whitespace run), exactly as the Python non-overlapping scan does. -/
def finditerAux (text : List Char) (nums : List (List Char)) :
    Nat → Nat → List (List Char × Nat)
  | 0, _ => []
  | fuel + 1, p =>
    if text.length ≤ p then []
    else if isLineStart text p then
      match findFirstAlt text p nums with
      | some n =>
          (n, p) :: finditerAux text nums fuel (p + n.length + wsRunLen text (p + n.length))
      | none => finditerAux text nums fuel (p + 1)
    else finditerAux text nums fuel (p + 1)

/-- All heading matches of the saved_code.txt pattern in document order. -/
def finditer (text : List Char) (nums : List (List Char)) : List (List Char × Nat) :=
  finditerAux text nums (text.length + 1) 0

/-- Python dict assignment d[k] = v: the key keeps its first-insertion position,
the value is overwritten. -/
def dictInsert (d : List (List Char × Nat)) (k : List Char) (v : Nat) :
    List (List Char × Nat) :=
  if d.any (fun e => decide (e.1 = k)) then
    d.map (fun e => if e.1 = k then (k, v) else e)
  else d ++ [(k, v)]

/-- The dict comprehension of saved_code.txt line 55:
topic_locations gets one entry per matched group, later matches of the same
number overwriting earlier ones. -/
def dictOfMatches (ms : List (List Char × Nat)) : List (List Char × Nat) :=
  ms.foldl (fun d m => dictInsert d m.1 m.2) []

/-- Python dict lookup (keys are unique in the association lists built here). -/
def lookupD (d : List (List Char × Nat)) (k : List Char) : Option Nat :=
  match d with
  | [] => none
  | e :: rest => if e.1 = k then some e.2 else lookupD rest k

/-- topic_locations of saved_code.txt: dict from matched heading number to the
start offset of its last match. -/
def topicLocations (text : List Char) (nums : List (List Char)) :
    List (List Char × Nat) :=
  dictOfMatches (finditer text nums)

/-- The end_pos loop of saved_code.txt lines 64-67: the smallest located offset
strictly greater than startPos, defaulting to the text length. -/
def endPos (textLen : Nat) (locs : List (List Char × Nat)) (startPos : Nat) : Nat :=
  locs.foldl (fun e m => if startPos < m.2 && m.2 < e then m.2 else e) textLen

/-- Output unit for topics: heading number, title from the reference table,
content substring. -/
structure TopicRecord where
  topic_number : List Char
  title : List Char
  content : List Char
deriving DecidableEq

/-- Output unit for questions. -/
structure QuestionRecord where
  question_number : List Char
  question_text : List Char
deriving DecidableEq

/-- The per-row loop of saved_code.txt lines 58-77: iterate the CSV rows in
order, keep rows whose number was located, and build the record with content
text[start_pos:end_pos].strip(). -/
def extractTopicsLoop (text : List Char) (locs : List (List Char × Nat))
    (rows : List (List Char × List Char)) : List TopicRecord :=
  rows.filterMap (fun r =>
    (lookupD locs r.1).map (fun s =>
      ⟨r.1, r.2, pyStrip ((text.drop s).take (endPos text.length locs s - s))⟩))

/-- Case-insensitive character equality (re.IGNORECASE on ASCII). -/
def ciEq (a b : Char) : Bool := a.toUpper == b.toUpper

/-- Case-insensitive literal matching. -/
def ciStartsWith : List Char → List Char → Bool
  | [], _ => true
  | _ :: _, [] => false
  | p :: ps, c :: cs => ciEq p c && ciStartsWith ps cs

/-- re.search of a case-insensitive literal: offset of its leftmost occurrence. -/
def findCI (text pat : List Char) : Option Nat :=
  (List.range text.length).find? (fun i => ciStartsWith pat (text.drop i))

/-- Maximal digit run (regex digit-plus, ASCII). -/
def digitRun (l : List Char) : List Char := l.takeWhile Char.isDigit

/-- The numeric token digits dot digits of the saved_code.txt question pattern,
matched at position p; returns the token and the position after it.
Backtracking inside the token never helps (shorter digit runs still end at a
digit), so the greedy parse is exact. -/
def matchNumDD (text : List Char) (p : Nat) : Option (List Char × Nat) :=
  let t := text.drop p
  let d1 := digitRun t
  if d1.isEmpty then none
  else
    match t.drop d1.length with
    | '.' :: r2 =>
        let d2 := digitRun r2
        if d2.isEmpty then none
        else some (d1 ++ '.' :: d2, p + d1.length + 1 + d2.length)
    | _ => none

/-- Does the lookahead of the saved_code.txt question pattern
(newline then digits dot digits, or absolute end) hold at position q? -/
def lookQ (text : List Char) (q : Nat) : Bool :=
  q == text.length ||
    (text.get? q == some '\n' && (matchNumDD text (q + 1)).isSome)

/-- First position at or after start where the question terminator lookahead
holds (the lazy body grows until this position; the absolute-end alternative
makes it always exist). -/
def firstLook (text : List Char) (start : Nat) : Nat :=
  ((List.range (text.length + 1)).find?
    (fun q => decide (start ≤ q) && lookQ text q)).getD text.length

/-- One match of the saved_code.txt question pattern at position p:
numeric token, at least one whitespace (greedy), then the lazy dot-all body of
at least one character up to the terminator lookahead.  When the whitespace
run reaches the end of the text the greedy whitespace backtracks one character
so the body can be non-empty, exactly as Python does. -/
def matchQAt (text : List Char) (p : Nat) : Option (List Char × List Char × Nat) :=
  match matchNumDD text p with
  | none => none
  | some (num, numEnd) =>
    let w := wsRunLen text numEnd
    if w == 0 then none
    else if numEnd + w < text.length then
      let bodyStart := numEnd + w
      let q := firstLook text (bodyStart + 1)
      some (num, (text.drop bodyStart).take (q - bodyStart), q)
    else if 2 ≤ w then
      some (num, (text.drop (numEnd + w - 1)).take 1, text.length)
    else none

/-- findall of the saved_code.txt question pattern: leftmost non-overlapping
matches, resuming at each match end (the lookahead consumes nothing). -/
def findQAux (text : List Char) : Nat → Nat → List (List Char × List Char)
  | 0, _ => []
  | fuel + 1, p =>
    if text.length ≤ p then []
    else
      match matchQAt text p with
      | some (num, body, nxt) => (num, body) :: findQAux text fuel nxt
      | none => findQAux text fuel (p + 1)

/-- The question part of saved_code.txt lines 80-88: find EXERCISES
case-insensitively, scan the tail from the marker on, strip each body. -/
def savedQuestions (text : List Char) : List QuestionRecord :=
  match findCI text ("EXERCISES".toList) with
  | none => []
  | some i =>
      let ex := text.drop i
      (findQAux ex (ex.length + 1) 0).map (fun m => ⟨m.1, pyStrip m.2⟩)

/-- extract_topics_and_questions of src/saved_code.txt lines 43-90: the
CSV-guided extractor.  rows are the (heading_number, heading_text) pairs of
the reference table of the chapter, in CSV order. -/
def extract_topics_and_questions (text : List Char)
    (rows : List (List Char × List Char)) :
    List TopicRecord × List QuestionRecord :=
  (extractTopicsLoop text (topicLocations text (rows.map (fun r => r.1))) rows,
   savedQuestions text)

/-- The zero-or-more further dot-groups of the heading regex of
extract_ncert_topics (src/unnamed/part_000 line 35): a dot followed by a
non-empty digit run, repeated greedily.  Dropping trailing groups during
backtracking always leaves a dot (never whitespace) as the next character, so
the greedy parse is the only one the pattern can use. -/
def dotGroupsAux : Nat → List Char → List Char × List Char
  | 0, l => ([], l)
  | fuel + 1, l =>
    match l with
    | [] => ([], [])
    | c :: rest =>
      if c = '.' then
        let d := digitRun rest
        if d.isEmpty then ([], c :: rest)
        else
          let pr := dotGroupsAux fuel (rest.drop d.length)
          (c :: (d ++ pr.1), pr.2)
      else ([], c :: rest)

/-- Group 1 of the extract_ncert_topics heading regex: a digit run followed by
at least one dot-group.  Returns the matched number and the rest. -/
def parseHeadingNum (l : List Char) : Option (List Char × List Char) :=
  let d := digitRun l
  if d.isEmpty then none
  else
    let pr := dotGroupsAux l.length (l.drop d.length)
    if pr.1.isEmpty then none else some (d ++ pr.1, l.drop (d.length + pr.1.length))

/-- Backtracking split point for a whitespace-plus run that reached the end of
the text: the greedy whitespace gives back characters until the following
anything-but-newline-plus group can take at least one of them.  Returns the
largest whitespace length k at least 1 whose next character is not a newline. -/
def bestBacktrackK (w : List Char) : Option Nat :=
  (((List.range w.length).reverse).filter
    (fun k => decide (1 ≤ k) &&
      (match w.get? k with
       | some c => decide (c ≠ '\n')
       | none => false))).head?

/-- After the heading number: whitespace-plus then the title group
(anything-but-newline, at least one character), with the end-of-text
backtracking Python performs when the whitespace run swallows the rest of the
string.  Returns the title and the number of characters consumed. -/
def matchWsTitle (rest : List Char) : Option (List Char × Nat) :=
  let w := rest.takeWhile isWs
  if w.isEmpty then none
  else
    let afterW := rest.drop w.length
    if afterW.isEmpty then
      match bestBacktrackK w with
      | some k =>
          let title := (w.drop k).takeWhile (fun c => decide (c ≠ '\n'))
          some (title, k + title.length)
      | none => none
    else
      let title := afterW.takeWhile (fun c => decide (c ≠ '\n'))
      some (title, w.length + title.length)

/-- One match of the extract_ncert_topics heading regex at line start p:
dotted number, whitespace, title line.  Returns (number, title, match end). -/
def ncertMatchAt (text : List Char) (p : Nat) : Option (List Char × List Char × Nat) :=
  match parseHeadingNum (text.drop p) with
  | none => none
  | some (num, _) =>
    match matchWsTitle (text.drop (p + num.length)) with
    | none => none
    | some (title, consumed) => some (num, title, p + num.length + consumed)

/-- re.finditer for the extract_ncert_topics pattern: left-to-right scan over
line starts, resuming after each full match.  Entries are
(number, title, match start, match end). -/
def ncertFindAux (text : List Char) :
    Nat → Nat → List (List Char × List Char × Nat × Nat)
  | 0, _ => []
  | fuel + 1, p =>
    if text.length ≤ p then []
    else if isLineStart text p then
      match ncertMatchAt text p with
      | some (num, title, e) => (num, title, p, e) :: ncertFindAux text fuel e
      | none => ncertFindAux text fuel (p + 1)
    else ncertFindAux text fuel (p + 1)

/-- The per-match loop of extract_ncert_topics lines 38-44: content runs from
the end of this match to the start of the next match (or end of text), stripped; the
title is stripped too. -/
def ncertBuild (text : List Char) :
    List (List Char × List Char × Nat × Nat) → List TopicRecord
  | [] => []
  | (num, title, _, e) :: rest =>
    let nextStart :=
      match rest with
      | (_, _, s2, _) :: _ => s2
      | [] => text.length
    ⟨num, pyStrip title, pyStrip ((text.drop e).take (nextStart - e))⟩ ::
      ncertBuild text rest

/-- extract_ncert_topics of src/unnamed/part_000 lines 33-45: guide-free
extraction of dotted numbered headings. -/
def extract_ncert_topics (text : List Char) : List TopicRecord :=
  ncertBuild text (ncertFindAux text (text.length + 1) 0)

/-- extract_topics of src/unnamed/part_000 lines 99-111; the source marks it
"(This function is unchanged)" and its body is identical to
extract_ncert_topics. -/
def extract_topics (text : List Char) : List TopicRecord :=
  extract_ncert_topics text

/-- The EXERCISES marker search of extract_questions
(src/unnamed/part_000 line 115): the pattern EXERCISES followed by a dot-all
group of at least one character, case-insensitive re.search; so the marker
must have at least one character after it. -/
def findExMarker (text : List Char) : Option Nat :=
  (List.range text.length).find? (fun i =>
    ciStartsWith ("EXERCISES".toList) (text.drop i) && decide (i + 9 < text.length))

/-- The second numeric alternative of the extract_questions pattern:
digits followed by a dot. -/
def matchNumD (text : List Char) (p : Nat) : Option (List Char × Nat) :=
  let t := text.drop p
  let d1 := digitRun t
  if d1.isEmpty then none
  else
    match t.drop d1.length with
    | '.' :: _ => some (d1 ++ ['.'], p + d1.length + 1)
    | _ => none

/-- The whitespace-star dash part of the extract_questions pattern at q:
maximal whitespace run, then a literal dash; returns the position after the
dash.  (A dash is not whitespace, so no other split can succeed.) -/
def matchDashBase (text : List Char) (q : Nat) : Option Nat :=
  let w1 := wsRunLen text q
  match text.get? (q + w1) with
  | some '-' => some (q + w1 + 1)
  | _ => none

/-- Number alternation plus dash of the extract_questions pattern at p,
trying digits-dot-digits first and falling back to digits-dot when the dash
part fails, as the Python alternation does.  Returns (number, position after
the dash). -/
def matchQ2Core (text : List Char) (p : Nat) : Option (List Char × Nat) :=
  match matchNumDD text p with
  | some (num, ne) =>
    (match matchDashBase text ne with
     | some b => some (num, b)
     | none =>
       match matchNumD text p with
       | some (num2, ne2) =>
         (match matchDashBase text ne2 with
          | some b2 => some (num2, b2)
          | none => none)
       | none => none)
  | none =>
    match matchNumD text p with
    | some (num2, ne2) =>
      (match matchDashBase text ne2 with
       | some b2 => some (num2, b2)
       | none => none)
    | none => none

/-- Terminator lookahead of the extract_questions pattern at q: newline then
digits-dot-digits, newline then digits-dot, double newline, or dollar
(absolute end, or just before a final newline since MULTILINE is off). -/
def lookQ2 (text : List Char) (q : Nat) : Bool :=
  q == text.length ||
    (text.get? q == some '\n' &&
      ((matchNumDD text (q + 1)).isSome || (matchNumD text (q + 1)).isSome ||
        text.get? (q + 1) == some '\n')) ||
    (q + 1 == text.length && text.get? q == some '\n')

/-- First position at or after start where the extract_questions terminator
holds (the dollar alternative holds at the absolute end, so it exists). -/
def firstLook2 (text : List Char) (start : Nat) : Nat :=
  ((List.range (text.length + 1)).find?
    (fun q => decide (start ≤ q) && lookQ2 text q)).getD text.length

/-- One match of the extract_questions pattern at p: number, dash part, then
greedy whitespace-star and the lazy dot-all body of at least one character up
to the terminator.  When the whitespace after the dash reaches the end of the
text, it backtracks just enough to leave one character for the body. -/
def matchQ2At (text : List Char) (p : Nat) : Option (List Char × List Char × Nat) :=
  match matchQ2Core text p with
  | none => none
  | some (num, base) =>
    if base < text.length then
      let w2 := wsRunLen text base
      let bodyStart := if base + w2 < text.length then base + w2 else text.length - 1
      let q2 := firstLook2 text (bodyStart + 1)
      some (num, (text.drop bodyStart).take (q2 - bodyStart), q2)
    else none

/-- findall for the extract_questions pattern: leftmost non-overlapping scan. -/
def findQ2Aux (text : List Char) : Nat → Nat → List (List Char × List Char)
  | 0, _ => []
  | fuel + 1, p =>
    if text.length ≤ p then []
    else
      match matchQ2At text p with
      | some (num, body, nxt) => (num, body) :: findQ2Aux text fuel nxt
      | none => findQ2Aux text fuel (p + 1)

/-- Python str.strip with a dot argument: drop leading and trailing dots. -/
def stripDots (l : List Char) : List Char :=
  ((l.dropWhile (fun c => c == '.')).reverse.dropWhile (fun c => c == '.')).reverse

/-- extract_questions of src/unnamed/part_000 lines 113-126: find the
EXERCISES marker, scan its dot-all group with the dash-delimited question
pattern, strip dots from each number and whitespace from each body. -/
def extract_questions (text : List Char) : List QuestionRecord :=
  match findExMarker text with
  | none => []
  | some i =>
      let ex := text.drop (i + 9)
      (findQ2Aux ex (ex.length + 1) 0).map (fun m => ⟨stripDots m.1, pyStrip m.2⟩)

/-- The OCR line-wrap normalization inside pdf_to_ocr_text
(src/unnamed/part_000 line 28): Python text.replace of hyphen-newline with the
empty string, a single left-to-right pass over non-overlapping occurrences. -/
def removeHyphenNewline : List Char → List Char
  | [] => []
  | [c] => [c]
  | c1 :: c2 :: rest =>
    if c1 = '-' ∧ c2 = '\n' then removeHyphenNewline rest
    else c1 :: removeHyphenNewline (c2 :: rest)

/-- Does the list contain a hyphen immediately followed by a newline? -/
def hasHyphenNewline : List Char → Bool
  | [] => false
  | [_] => false
  | c1 :: c2 :: rest =>
    if c1 = '-' ∧ c2 = '\n' then true else hasHyphenNewline (c2 :: rest)

/-- The value carried by the last entry of a match list whose key equals k:
the offset the Python dict comprehension ends up storing for k. -/
def lastMatchValue (ms : List (List Char × Nat)) (k : List Char) : Option Nat :=
  match ms with
  | [] => none
  | m :: rest =>
    match lastMatchValue rest k with
    | some v => some v
    | none => if m.1 = k then some m.2 else none

/-- Scenario A input text of spec section 8. -/
def textA : List Char :=
  ("1 Intro\nSome text.\n1.1 Basics\nMore text.\n1.2 Advanced\nFinal text.").toList

/-- Scenario A reference rows (number, title), in document order. -/
def rowsA : List (List Char × List Char) :=
  [(("1").toList, ("Intro").toList), (("1.1").toList, ("Basics").toList),
   (("1.2").toList, ("Advanced").toList)]

/-- Scenario B reference rows: scenario A plus a number absent from the text. -/
def rowsB : List (List Char × List Char) :=
  rowsA ++ [(("1.1.1").toList, ("X").toList)]

/-- A text in which the heading number 3.2 occurs at two line starts
(offsets 0 and 15). -/
def text2 : List Char := ("3.2 first\nblah\n3.2 second\nend").toList

/-- Reference set containing only the number 2.4. -/
def refC3 : List (List Char) := [("2.4").toList]

/-- A 25-character text whose only heading match starts at offset 20, which is
at the 80-percent boundary (20 = 0.8 times 25). -/
def text4 : List Char := ("aaaaaaaaaaaaaaaaaaa\n9.9 x").toList

/-- Reference rows for text4. -/
def rows4 : List (List Char × List Char) := [(("9.9").toList, ("T").toList)]

/-- A text whose first line renders the number 1 followed by the number pair
1 1; the alternation always matches the shorter alternative first here. -/
def text5 : List Char := ("1 1 intro\nrest.").toList

/-- Reference rows for text5: the number 1 and the whitespace-carrying
number 1 1, the latter never located by the primary pass. -/
def rows5 : List (List Char × List Char) :=
  [(("1").toList, ("T1").toList), (("1 1").toList, ("T2").toList)]

/-- Scenario C input text of spec section 8. -/
def textC : List Char :=
  ("Some text first.\nEXERCISES\n1.1 What is the unit of force?\n1.2 Define mass.\n").toList

/-- A text with two headings in document order 1.1 then 1.2. -/
def text8 : List Char := ("1.1 x\n1.2 y").toList

/-- Reference rows for text8 in the reverse of document order. -/
def rows8 : List (List Char × List Char) :=
  [(("1.2").toList, ("B").toList), (("1.1").toList, ("A").toList)]

/-- A text containing no EXERCISES marker. -/
def text7 : List Char := ("No marker here.\n1.1 q").toList

/-- Claim C1, counterexample: in scenario A the first TopicRecord produced by
extract_topics_and_questions does not equal the exact substring of the text
from its heading start offset (0) up to the next heading start offset (19);
the code strips the span, dropping the trailing newline, so the claimed
content-is-exactly-the-substring property fails at this concrete input. -/
theorem C1_counterexample :
    lookupD (topicLocations textA (rowsA.map (fun r => r.1))) (("1").toList) = some 0 ∧
    lookupD (topicLocations textA (rowsA.map (fun r => r.1))) (("1.1").toList) = some 19 ∧
    ((extract_topics_and_questions textA rowsA).1.head?.map (fun t => t.content)) ≠
      some (textA.take 19) := by
  exact ⟨by decide, by decide, by decide⟩

/-- Claim C1 as amended: in scenario A, three TopicRecords are produced, in
document order, one per located heading; the content of each is the substring
of the text from its own heading start offset up to the next located heading
start offset (or end of text) with surrounding whitespace stripped, and each
content begins at its own heading line. -/
theorem C1_theorem :
    (extract_topics_and_questions textA rowsA).1 =
      [⟨("1").toList, ("Intro").toList, pyStrip (textA.take 19)⟩,
       ⟨("1.1").toList, ("Basics").toList, pyStrip ((textA.drop 19).take 22)⟩,
       ⟨("1.2").toList, ("Advanced").toList, pyStrip ((textA.drop 41).take 24)⟩] ∧
    lcStartsWith (("1 ").toList) (pyStrip (textA.take 19)) = true ∧
    lcStartsWith (("1.1 ").toList) (pyStrip ((textA.drop 19).take 22)) = true ∧
    lcStartsWith (("1.2 ").toList) (pyStrip ((textA.drop 41).take 24)) = true := by
  exact ⟨by decide, by decide, by decide, by decide⟩

/-- Claim C2, counterexample: with 3.2 matching at line starts 0 and 15, the
dict comprehension of the primary pass retains offset 15 (the later match),
not the earliest occurrence at 0 that the claim requires. -/
theorem C2_counterexample :
    finditer text2 [("3.2").toList] = [(("3.2").toList, 0), (("3.2").toList, 15)] ∧
    lookupD (topicLocations text2 [("3.2").toList]) (("3.2").toList) = some 15 := by
  exact ⟨by decide, by decide⟩

/-- Claim C3, counterexample: with reference number 2.4, the rendering 2-4 at
a line start is not located at all (the compiled pattern is the escaped
literal followed by whitespace; there is no delimiter tolerance), refuting
the claim that the dash rendering is located. -/
theorem C3_counterexample :
    topicLocations (("2-4 Chemical Bond\nx").toList) refC3 = [] := by decide

/-- Claim C3 as amended: the heading matcher locates the expected number 2.4
only when rendered exactly as 2.4 followed by whitespace; the renderings 2-4,
2 4 and 2.4. are not located, and (as the claim correctly states) the matcher
never fires inside the longer numerals 12.4 and 2.45. -/
theorem C3_theorem :
    topicLocations (("2.4 t\nx").toList) refC3 = [(("2.4").toList, 0)] ∧
    topicLocations (("2-4 t\nx").toList) refC3 = [] ∧
    topicLocations (("2 4 t\nx").toList) refC3 = [] ∧
    topicLocations (("2.4. t\nx").toList) refC3 = [] ∧
    topicLocations (("12.4 t\nx").toList) refC3 = [] ∧
    topicLocations (("2.45 t\nx").toList) refC3 = [] := by
  exact ⟨by decide, by decide, by decide, by decide, by decide, by decide⟩

/-- Claim C4, counterexample: in text4 the heading 9.9 matches at offset 20,
at the 80-percent boundary of the 25-character text (8 * 25 = 10 * 20), yet
the primary pass retains it and a TopicRecord with that start offset is
produced: no body-fraction exclusion exists in the code. -/
theorem C4_counterexample :
    lookupD (topicLocations text4 (rows4.map (fun r => r.1))) (("9.9").toList) = some 20 ∧
    8 * text4.length ≤ 10 * 20 ∧
    (extract_topics_and_questions text4 rows4).1 =
      [⟨("9.9").toList, ("T").toList, ("9.9 x").toList⟩] := by
  exact ⟨by decide, by decide, by decide⟩

/-- Claim C5, counterexample: for text5 with reference numbers 1 and 1 1, the
number 1 1 is still missing after the primary pass (the alternation always
matches the alternative 1 first at their shared line start), and it matches,
as its own pattern, at relative offset 0 inside the content span of the
already-extracted record for 1 (a line start); yet no TopicRecord for 1 1 is
ever added: the code has no fallback recovery pass. -/
theorem C5_counterexample :
    (extract_topics_and_questions text5 rows5).1 =
      [⟨("1").toList, ("T1").toList, ("1 1 intro\nrest.").toList⟩] ∧
    isLineStart (("1 1 intro\nrest.").toList) 0 = true ∧
    matchesAt (("1 1 intro\nrest.").toList) 0 (("1 1").toList) = true ∧
    (∀ t ∈ (extract_topics_and_questions text5 rows5).1,
      t.topic_number ≠ ("1 1").toList) := by
  exact ⟨by decide, by decide, by decide, by decide⟩

/-- Claim C5 as amended: the code performs no fallback recovery; a number the
primary pass did not locate yields no TopicRecord even when it matches inside
an already-extracted content span (text5), and a missing number occurring
nowhere in the text leaves the output unchanged (scenario B equals
scenario A). -/
theorem C5_theorem :
    (extract_topics_and_questions textA rowsB).1 =
      (extract_topics_and_questions textA rowsA).1 ∧
    (extract_topics_and_questions text5 rows5).1 =
      [⟨("1").toList, ("T1").toList, ("1 1 intro\nrest.").toList⟩] := by
  exact ⟨by decide, by decide⟩

/-- Claim C6, counterexample: on the scenario C text the standalone
extract_questions of src/unnamed/part_000 returns an empty list, because its
pattern requires a literal dash between the question number and the question
body and the text contains none; the claim that this text yields the two
QuestionRecords fails for that extractor. -/
theorem C6_counterexample : extract_questions textC = [] := by decide

/-- Claim C6 as amended: the question extraction of the CSV-guided pipeline
(saved_code.txt) on the scenario C text yields exactly the two
QuestionRecords of the claim, in document order, whitespace-trimmed; the
older dash-delimited extractor yields an empty list on the same text. -/
theorem C6_theorem :
    (extract_topics_and_questions textC []).2 =
      [⟨("1.1").toList, ("What is the unit of force?").toList⟩,
       ⟨("1.2").toList, ("Define mass.").toList⟩] := by decide

/-- Claim C8, counterexample: with the reference table in the reverse of
document order, the output records appear in reference order (start offsets
6 then 0), not ascending by start offset as the claim requires. -/
theorem C8_counterexample :
    (extract_topics_and_questions text8 rows8).1 =
      [⟨("1.2").toList, ("B").toList, ("1.2 y").toList⟩,
       ⟨("1.1").toList, ("A").toList, ("1.1 x").toList⟩] ∧
    lookupD (topicLocations text8 (rows8.map (fun r => r.1))) (("1.2").toList) = some 6 ∧
    lookupD (topicLocations text8 (rows8.map (fun r => r.1))) (("1.1").toList) = some 0 := by
  exact ⟨by decide, by decide, by decide⟩

/-- Claim C9, counterexample: the hyphen-newline removal is a single
left-to-right replace pass and is not idempotent: on the four-character input
hyphen hyphen newline newline, one application leaves a residual
hyphen-newline pair that a second application removes. -/
theorem C9_counterexample :
    removeHyphenNewline (removeHyphenNewline (("--\n\n").toList)) ≠
      removeHyphenNewline (("--\n\n").toList) := by decide


/-- Helper: a key with a successful lookup occurs in the dict. -/
theorem any_key_of_lookupD (k : List Char) :
    ∀ (d : List (List Char × Nat)) (w : Nat), lookupD d k = some w →
      d.any (fun e => decide (e.1 = k)) = true := by
  intro d
  induction d with
  | nil => intro w hw; simp [lookupD] at hw
  | cons e d ih =>
    intro w hw
    simp only [List.any_cons, Bool.or_eq_true, decide_eq_true_eq]
    by_cases he : e.1 = k
    · exact Or.inl he
    · rw [lookupD, if_neg he] at hw
      exact Or.inr (ih w hw)

/-- Helper: lookup in a key-free dict fails. -/
theorem lookupD_eq_none_of_not_any (k : List Char) :
    ∀ d : List (List Char × Nat),
    d.any (fun e => decide (e.1 = k)) = false → lookupD d k = none := by
  intro d
  induction d with
  | nil => intro _; rfl
  | cons e d ih =>
    intro h
    simp only [List.any_cons, Bool.or_eq_false_iff, decide_eq_false_iff_not] at h
    rw [lookupD, if_neg h.1]
    exact ih (by simp [h.2])

/-- Helper: appending a fresh entry makes its key found with its value. -/
theorem lookupD_append_of_none (k : List Char) (v : Nat) :
    ∀ d : List (List Char × Nat),
    lookupD d k = none → lookupD (d ++ [(k, v)]) k = some v := by
  intro d
  induction d with
  | nil => intro _; simp [lookupD]
  | cons e d ih =>
    intro h
    rw [lookupD] at h
    by_cases he : e.1 = k
    · rw [if_pos he] at h; exact absurd h (by simp)
    · rw [if_neg he] at h
      rw [List.cons_append, lookupD, if_neg he]
      exact ih h

/-- Helper: after overwriting the value at key k everywhere in the dict,
looking up k gives the new value when k occurs. -/
theorem lookupD_map_overwrite (k : List Char) (v : Nat) :
    ∀ d : List (List Char × Nat),
    d.any (fun e => decide (e.1 = k)) = true →
    lookupD (d.map (fun e => if e.1 = k then (k, v) else e)) k = some v := by
  intro d
  induction d with
  | nil => intro h; simp at h
  | cons e d ih =>
    intro h
    simp only [List.any_cons, Bool.or_eq_true, decide_eq_true_eq] at h
    simp only [List.map_cons]
    by_cases he : e.1 = k
    · rw [if_pos he, lookupD, if_pos rfl]
    · rw [if_neg he, lookupD, if_neg he]
      exact ih (h.resolve_left he)

/-- Helper: overwriting key k does not change lookups of other keys. -/
theorem lookupD_map_ne (k k2 : List Char) (v : Nat) (hne : k2 ≠ k) :
    ∀ d : List (List Char × Nat),
    lookupD (d.map (fun e => if e.1 = k then (k, v) else e)) k2 = lookupD d k2 := by
  intro d
  induction d with
  | nil => rfl
  | cons e d ih =>
    simp only [List.map_cons]
    by_cases he : e.1 = k
    · rw [if_pos he, lookupD, lookupD,
        if_neg (fun h : (k, v).1 = k2 => hne (h.symm)),
        if_neg (fun h : e.1 = k2 => hne ((he ▸ h).symm))]
      exact ih
    · rw [if_neg he, lookupD, lookupD]
      by_cases h2 : e.1 = k2
      · rw [if_pos h2, if_pos h2]
      · rw [if_neg h2, if_neg h2]; exact ih

/-- Helper: appending an entry for key k does not change lookups of other keys. -/
theorem lookupD_append_ne (k k2 : List Char) (v : Nat) (hne : k2 ≠ k) :
    ∀ d : List (List Char × Nat),
    lookupD (d ++ [(k, v)]) k2 = lookupD d k2 := by
  intro d
  induction d with
  | nil =>
    simp only [List.nil_append, lookupD]
    rw [if_neg (fun h : (k, v).1 = k2 => hne (h.symm))]
  | cons e d ih =>
    rw [List.cons_append, lookupD, lookupD]
    by_cases h2 : e.1 = k2
    · rw [if_pos h2, if_pos h2]
    · rw [if_neg h2, if_neg h2]; exact ih

/-- Helper: dictInsert makes lookup of the inserted key give the new value. -/
theorem lookupD_dictInsert_self (d : List (List Char × Nat)) (k : List Char) (v : Nat) :
    lookupD (dictInsert d k v) k = some v := by
  unfold dictInsert
  by_cases hc : d.any (fun e => decide (e.1 = k)) = true
  · rw [if_pos hc]
    exact lookupD_map_overwrite k v d hc
  · rw [if_neg hc]
    exact lookupD_append_of_none k v d
      (lookupD_eq_none_of_not_any k d (Bool.eq_false_iff.mpr hc))

/-- Helper: dictInsert leaves lookups of other keys unchanged. -/
theorem lookupD_dictInsert_ne (d : List (List Char × Nat)) (k k2 : List Char) (v : Nat)
    (hne : k2 ≠ k) :
    lookupD (dictInsert d k v) k2 = lookupD d k2 := by
  unfold dictInsert
  by_cases hc : d.any (fun e => decide (e.1 = k)) = true
  · rw [if_pos hc]; exact lookupD_map_ne k k2 v hne d
  · rw [if_neg hc]; exact lookupD_append_ne k k2 v hne d

/-- Helper: the cons unfolding of lastMatchValue. -/
theorem lastMatchValue_cons (m : List Char × Nat) (ms : List (List Char × Nat))
    (k : List Char) :
    lastMatchValue (m :: ms) k =
      match lastMatchValue ms k with
      | some v => some v
      | none => if m.1 = k then some m.2 else none := rfl

/-- Helper: folding dictInsert over a match list realises last-value-wins
lookup semantics relative to the starting dict. -/
theorem lookupD_foldl_dictInsert :
    ∀ (ms : List (List Char × Nat)) (d : List (List Char × Nat)) (k : List Char),
    lookupD (ms.foldl (fun d m => dictInsert d m.1 m.2) d) k =
      match lastMatchValue ms k with
      | some v => some v
      | none => lookupD d k := by
  intro ms
  induction ms with
  | nil => intro d k; rfl
  | cons m ms ih =>
    intro d k
    simp only [List.foldl_cons]
    rw [ih, lastMatchValue_cons]
    cases hlv : lastMatchValue ms k with
    | some v => rfl
    | none =>
      by_cases hm : m.1 = k
      · rw [if_pos hm, ← hm, lookupD_dictInsert_self]
      · rw [if_neg hm]
        exact lookupD_dictInsert_ne d m.1 k m.2 (fun h => hm h.symm)

/-- Claim C2 as amended: for every text and reference set, the offset the
primary pass retains for a heading number is the offset of the LAST match of
that number in scan order (the Python dict comprehension overwrites values of
repeated keys), not the earliest occurrence. -/
theorem C2_theorem (text : List Char) (nums : List (List Char)) (num : List Char) :
    lookupD (topicLocations text nums) num = lastMatchValue (finditer text nums) num := by
  unfold topicLocations dictOfMatches
  rw [lookupD_foldl_dictInsert]
  cases lastMatchValue (finditer text nums) num <;> rfl

/-- Helper: the topic component of the extractor output is the segmentation
loop over the located headings. -/
theorem extract_topics_fst (text : List Char) (rows : List (List Char × List Char)) :
    (extract_topics_and_questions text rows).1 =
      extractTopicsLoop text (topicLocations text (rows.map (fun r => r.1))) rows := rfl

/-- Claim C4 as amended: the primary pass applies no body-fraction exclusion:
every reference row whose heading number was located yields a TopicRecord,
whatever the start offset (including offsets at or beyond 0.8 times the text
length). -/
theorem C4_theorem (text : List Char) (rows : List (List Char × List Char))
    (num title : List Char) (p : Nat)
    (hmem : (num, title) ∈ rows)
    (hloc : lookupD (topicLocations text (rows.map (fun r => r.1))) num = some p) :
    ∃ t ∈ (extract_topics_and_questions text rows).1, t.topic_number = num := by
  rw [extract_topics_fst]
  refine ⟨⟨num, title,
    pyStrip ((text.drop p).take
      (endPos text.length (topicLocations text (rows.map (fun r => r.1))) p - p))⟩,
    ?_, rfl⟩
  unfold extractTopicsLoop
  rw [List.mem_filterMap]
  refine ⟨(num, title), hmem, ?_⟩
  rw [hloc]
  rfl

/-- Claim C4 witness: the heading located at the 80-percent boundary of text4
still yields a TopicRecord. -/
theorem C4_witness :
    ((("9.9").toList, ("T").toList) ∈ rows4 ∧
      lookupD (topicLocations text4 (rows4.map (fun r => r.1))) (("9.9").toList) =
        some 20) ∧
    ∃ t ∈ (extract_topics_and_questions text4 rows4).1,
      t.topic_number = ("9.9").toList :=
  ⟨⟨by decide, by decide⟩,
    C4_theorem text4 rows4 (("9.9").toList) (("T").toList) 20 (by decide) (by decide)⟩

/-- Claim C7, confirmed: if the literal EXERCISES occurs nowhere in the text
(case-insensitively), both question extractors return the empty list; being
total functions, they raise nothing. -/
theorem C7_theorem (text : List Char) (rows : List (List Char × List Char))
    (h : ∀ i, i < text.length →
      ciStartsWith (("EXERCISES").toList) (text.drop i) = false) :
    (extract_topics_and_questions text rows).2 = [] ∧ extract_questions text = [] := by
  constructor
  · show savedQuestions text = []
    unfold savedQuestions findCI
    rw [List.find?_eq_none.mpr ?_]
    intro i hi
    rw [List.mem_range] at hi
    simp only [Bool.not_eq_true]
    exact h i hi
  · unfold extract_questions findExMarker
    rw [List.find?_eq_none.mpr ?_]
    intro i hi heq
    rw [List.mem_range] at hi
    simp only [Bool.and_eq_true, decide_eq_true_eq] at heq
    rw [h i hi] at heq
    exact absurd heq.1 (by simp)

/-- Claim C7 witness: a concrete marker-free text yields empty question lists. -/
theorem C7_witness :
    (∀ i, i < text7.length →
      ciStartsWith (("EXERCISES").toList) (text7.drop i) = false) ∧
    ((extract_topics_and_questions text7 []).2 = [] ∧ extract_questions text7 = []) :=
  ⟨by decide, C7_theorem text7 [] (by decide)⟩

/-- Helper: the numbers of the records produced by the segmentation loop are
the located reference numbers in reference order. -/
theorem extractTopicsLoop_map_number (text : List Char) (locs : List (List Char × Nat)) :
    ∀ rows : List (List Char × List Char),
    (extractTopicsLoop text locs rows).map (fun t => t.topic_number) =
      (rows.filter (fun r => (lookupD locs r.1).isSome)).map (fun r => r.1) := by
  intro rows
  induction rows with
  | nil => rfl
  | cons r rows ih =>
    unfold extractTopicsLoop at ih ⊢
    rw [List.filterMap_cons]
    cases hl : lookupD locs r.1 with
    | none => simp [hl, ih]
    | some s => simp [hl, ih]

/-- Claim C8 as amended: for every text and reference table, the output
TopicRecords appear in reference-table order, one per located reference row;
that coincides with ascending start offset only when the reference table is
itself in document order. -/
theorem C8_theorem (text : List Char) (rows : List (List Char × List Char)) :
    ((extract_topics_and_questions text rows).1).map (fun t => t.topic_number) =
      (rows.filter (fun r =>
        (lookupD (topicLocations text (rows.map (fun r => r.1))) r.1).isSome)).map
        (fun r => r.1) := by
  rw [extract_topics_fst]
  set locs := topicLocations text (rows.map (fun r => r.1)) with hlocs
  exact extractTopicsLoop_map_number text locs rows

/-- Helper: the hyphen-newline removal fixes any list without a
hyphen-newline pair. -/
theorem removeHyphenNewline_of_none (l : List Char) (h : hasHyphenNewline l = false) :
    removeHyphenNewline l = l := by
  induction l with
  | nil => rfl
  | cons c rest ih =>
    cases rest with
    | nil => rfl
    | cons c2 rest2 =>
      rw [hasHyphenNewline] at h
      rw [removeHyphenNewline]
      by_cases hc : c = '-' ∧ c2 = '\n'
      · rw [if_pos hc] at h; exact absurd h (by simp)
      · rw [if_neg hc] at h
        rw [if_neg hc, ih h]

/-- Claim C9 as amended: the hyphen-newline removal is idempotent exactly when
its single pass leaves no residual hyphen-newline pair; for every input whose
once-normalized form has no such pair, applying it twice equals applying it
once (it is not idempotent in general, see the counterexample). -/
theorem C9_theorem (l : List Char)
    (h : hasHyphenNewline (removeHyphenNewline l) = false) :
    removeHyphenNewline (removeHyphenNewline l) = removeHyphenNewline l :=
  removeHyphenNewline_of_none (removeHyphenNewline l) h

/-- Claim C9 witness: a hyphenated line break is removed once and the result
is a fixed point. -/
theorem C9_witness :
    hasHyphenNewline (removeHyphenNewline (("ab-\ncd").toList)) = false ∧
    removeHyphenNewline (removeHyphenNewline (("ab-\ncd").toList)) =
      removeHyphenNewline (("ab-\ncd").toList) :=
  ⟨by decide, C9_theorem (("ab-\ncd").toList) (by decide)⟩

/-- Helper: the group part returned by dotGroupsAux is empty or starts with a
dot. -/
theorem dotGroupsAux_shape (fuel : Nat) (l : List Char) :
    (dotGroupsAux fuel l).1 = [] ∨ '.' ∈ (dotGroupsAux fuel l).1 := by
  cases fuel with
  | zero => left; rfl
  | succ fuel =>
    cases l with
    | nil => left; rfl
    | cons c rest =>
      rw [dotGroupsAux]
      by_cases hc : c = '.'
      · rw [if_pos hc]
        by_cases hd : (digitRun rest).isEmpty
        · rw [if_pos hd]; left; rfl
        · rw [if_neg hd]
          right
          rw [hc]
          exact List.mem_cons_self '.' _
      · rw [if_neg hc]; left; rfl

/-- Helper: every heading number parsed by the extract_ncert_topics pattern
contains a dot. -/
theorem parseHeadingNum_dot (l num rest : List Char)
    (h : parseHeadingNum l = some (num, rest)) : '.' ∈ num := by
  unfold parseHeadingNum at h
  by_cases hd : (digitRun l).isEmpty
  · rw [if_pos hd] at h; exact absurd h (by simp)
  · rw [if_neg hd] at h
    by_cases hg : (dotGroupsAux l.length (l.drop (digitRun l).length)).1.isEmpty
    · rw [if_pos hg] at h; exact absurd h (by simp)
    · rw [if_neg hg] at h
      have hnum : num = digitRun l ++ (dotGroupsAux l.length (l.drop (digitRun l).length)).1 := by
        have := Option.some.inj h
        exact (congrArg Prod.fst this).symm
      rcases dotGroupsAux_shape l.length (l.drop (digitRun l).length) with he | hm
      · rw [he] at hg; exact absurd rfl hg
      · rw [hnum]
        exact List.mem_append_right _ hm

/-- Helper: every match emitted by the extract_ncert_topics matcher carries a
dotted number. -/
theorem ncertMatchAt_dot (text : List Char) (p : Nat) (num title : List Char) (e : Nat)
    (h : ncertMatchAt text p = some (num, title, e)) : '.' ∈ num := by
  unfold ncertMatchAt at h
  split at h
  · exact absurd h (by simp)
  · rename_i vn vr hp
    split at h
    · exact absurd h (by simp)
    · rename_i wt wc hw
      have hv : vn = num := congrArg (fun x => x.1) (Option.some.inj h)
      rw [← hv]
      exact parseHeadingNum_dot (text.drop p) vn vr hp

/-- Helper: every match collected by the extract_ncert_topics scan carries a
dotted number. -/
theorem ncertFindAux_dot (text : List Char) :
    ∀ (fuel p : Nat) (m : List Char × List Char × Nat × Nat),
    m ∈ ncertFindAux text fuel p → '.' ∈ m.1 := by
  intro fuel
  induction fuel with
  | zero => intro p m h; exact absurd h (by simp [ncertFindAux])
  | succ fuel ih =>
    intro p m h
    rw [ncertFindAux] at h
    by_cases h1 : text.length ≤ p
    · rw [if_pos h1] at h; exact absurd h (by simp)
    · rw [if_neg h1] at h
      by_cases h2 : isLineStart text p = true
      · rw [if_pos h2] at h
        cases hm : ncertMatchAt text p with
        | none => rw [hm] at h; exact ih (p + 1) m h
        | some v =>
          rw [hm] at h
          rcases List.mem_cons.mp h with h3 | h3
          · rw [h3]
            exact ncertMatchAt_dot text p v.1 v.2.1 v.2.2 (by rw [hm])
          · exact ih v.2.2 m h3
      · rw [if_neg h2] at h
        exact ih (p + 1) m h

/-- Helper: every record built by ncertBuild takes its number from one of the
collected matches. -/
theorem ncertBuild_number (text : List Char) :
    ∀ (ms : List (List Char × List Char × Nat × Nat)) (t : TopicRecord),
    t ∈ ncertBuild text ms → ∃ m ∈ ms, t.topic_number = m.1 := by
  intro ms
  induction ms with
  | nil => intro t h; exact absurd h (by simp [ncertBuild])
  | cons m ms ih =>
    intro t h
    obtain ⟨num, title, s, e⟩ := m
    simp only [ncertBuild] at h
    rcases List.mem_cons.mp h with h1 | h1
    · exact ⟨(num, title, s, e), List.mem_cons_self _ _, by rw [h1]⟩
    · obtain ⟨m2, hm2, he⟩ := ih t h1
      exact ⟨m2, List.mem_cons_of_mem _ hm2, he⟩

/-- Claim C10, confirmed: in the guide-free extractors extract_ncert_topics
and extract_topics, every returned topic_number contains at least one dot
(the heading pattern demands two or more numeric components), so a top-level
single-integer heading such as 1 at a line start is never extracted. -/
theorem C10_theorem (text : List Char) (t : TopicRecord)
    (h : t ∈ extract_ncert_topics text ∨ t ∈ extract_topics text) :
    '.' ∈ t.topic_number ∧ t.topic_number ≠ ("1").toList := by
  have h1 : t ∈ extract_ncert_topics text := by
    cases h with
    | inl h => exact h
    | inr h => exact h
  obtain ⟨m, hm, he⟩ := ncertBuild_number text _ t h1
  have hdot : '.' ∈ t.topic_number := by
    rw [he]
    exact ncertFindAux_dot text _ _ m hm
  refine ⟨hdot, fun hone => ?_⟩
  rw [hone] at hdot
  exact absurd hdot (by decide)

/-- Claim C10 witness: the record extracted from a small dotted-heading text
has a dotted number. -/
theorem C10_witness :
    ((⟨("1.2").toList, ("Hi").toList, ("Body").toList⟩ : TopicRecord) ∈
        extract_ncert_topics (("1.2 Hi\nBody").toList) ∨
      (⟨("1.2").toList, ("Hi").toList, ("Body").toList⟩ : TopicRecord) ∈
        extract_topics (("1.2 Hi\nBody").toList)) ∧
    ('.' ∈ (⟨("1.2").toList, ("Hi").toList, ("Body").toList⟩ : TopicRecord).topic_number ∧
      (⟨("1.2").toList, ("Hi").toList, ("Body").toList⟩ : TopicRecord).topic_number ≠
        ("1").toList) :=
  ⟨Or.inl (by decide),
    C10_theorem (("1.2 Hi\nBody").toList) _ (Or.inl (by decide))⟩
